import Mathlib

/-!
Verification of the bootnode control plane against its specification.

Shallow embedding of the relevant program parts:
  * `core/billing/tiers.py`        — pricing tier catalog and monthly cost
  * `core/chains/lux_models.py`    — fleet create request validation
  * `core/chains/lux.py`           — fleet status aggregation
  * `core/billing/tracker.py`      — usage tracking / buffer flush
  * `core/deploy/helm.py`          — helm install/upgrade result handling,
                                     exec_pod validation
  * `core/billing/webhooks.py`     — signature verification, event dispatch,
                                     subscription reconciliation
  * `api/networks/__init__.py`     — network launcher tier defaults

Machine integers are modelled as `Nat`; Python `int` is unbounded so no
wrap-around modelling is needed.  The float arithmetic in
`calculate_monthly_cost` is modelled by an exact emulation of IEEE-754
binary64 with CPython's semantics: `int / int` true division is the
correctly rounded double of the exact quotient, `float * int` converts the
integer to a double (exact for the prices in play) and rounds the product
to nearest-even, and `int(float)` truncates toward zero.
-/

namespace Bootnode

/-! ## core/billing/tiers.py -/

/-- `PricingTier` enum from `core/billing/tiers.py`. -/
inductive PricingTier where
  | free
  | payg
  | growth
  | enterprise
  deriving DecidableEq, Repr

/-- `TierLimits` pydantic model from `core/billing/tiers.py`. -/
structure TierLimits where
  monthly_cu : Nat
  rate_limit_per_second : Nat
  max_apps : Nat
  max_webhooks : Nat
  price_per_million_cu : Nat
  overage_price_per_million_cu : Nat
  support_level : String
  features : List String
  deriving DecidableEq, Repr

/-- `TIER_LIMITS` catalog from `core/billing/tiers.py` (feature strings kept
verbatim from the source). -/
def TIER_LIMITS : PricingTier → TierLimits
  | .free =>
    { monthly_cu := 30000000
      rate_limit_per_second := 25
      max_apps := 5
      max_webhooks := 5
      price_per_million_cu := 0
      overage_price_per_million_cu := 0
      support_level := "community"
      features := ["30M compute units/month", "25 requests/second", "5 apps",
                   "5 webhooks", "Standard APIs", "Community support"] }
  | .payg =>
    { monthly_cu := 0
      rate_limit_per_second := 300
      max_apps := 30
      max_webhooks := 100
      price_per_million_cu := 40
      overage_price_per_million_cu := 40
      support_level := "email"
      features := ["Pay as you go", "300 requests/second", "30 apps",
                   "100 webhooks", "Enhanced APIs", "Email support",
                   "Usage analytics"] }
  | .growth =>
    { monthly_cu := 100000000
      rate_limit_per_second := 500
      max_apps := 50
      max_webhooks := 250
      price_per_million_cu := 35
      overage_price_per_million_cu := 35
      support_level := "priority"
      features := ["100M compute units included", "500 requests/second",
                   "50 apps", "250 webhooks", "All Enhanced APIs",
                   "Priority support", "Advanced analytics", "Custom webhooks"] }
  | .enterprise =>
    { monthly_cu := 0
      rate_limit_per_second := 1000
      max_apps := 0
      max_webhooks := 500
      price_per_million_cu := 0
      overage_price_per_million_cu := 0
      support_level := "dedicated"
      features := ["Custom compute units", "Custom rate limits",
                   "Unlimited apps", "500+ webhooks", "All APIs + custom",
                   "Dedicated support", "SLA guarantee", "Private endpoints",
                   "Custom integrations"] }

/-- `get_tier_limits` from `core/billing/tiers.py`. -/
def get_tier_limits (tier : PricingTier) : TierLimits := TIER_LIMITS tier

/-- Non-negative IEEE-754 binary64 values as produced by the cost
computation: zero, a finite normal value `m * 2^e` with `2^52 ≤ m < 2^53`,
or `+inf` (overflow).  All quantities in `calculate_monthly_cost` are
non-negative, and every non-zero intermediate is `≥ 10^-6`, far above the
subnormal threshold `2^-1022`, so sign and subnormal handling never arise. -/
inductive Fp where
  | zero
  | finite (m : Nat) (e : Int)
  | inf
  deriving DecidableEq, Repr

/-- Floor of the base-2 logarithm, fuel-based (structural in the fuel) so
that proofs can evaluate it by kernel reduction; agrees with `Nat.log2`. -/
def log2Aux : Nat → Nat → Nat
  | 0, _ => 0
  | fuel + 1, n => if n < 2 then 0 else log2Aux fuel (n / 2) + 1

/-- Floor of the base-2 logarithm (`log2floor 0 = 0`). -/
def log2floor (n : Nat) : Nat := log2Aux n n

/-- Quotient and remainder of `a / (b * 2^t)` together with the effective
denominator (against which the remainder is compared when rounding). -/
def divScaled (a b : Nat) (t : Int) : Nat × Nat × Nat :=
  if 0 ≤ t then
    let den := b * 2 ^ t.toNat
    (a / den, a % den, den)
  else
    let num := a * 2 ^ (-t).toNat
    (num / b, num % b, b)

/-- Round the positive rational `(a / b) * 2^k` to the nearest binary64
value, ties to even, overflowing to `inf` above `(2^53 - 1) * 2^971`
(requires `a > 0`, `b > 0`). -/
def roundScaled (a b : Nat) (k : Int) : Fp :=
  let t0 : Int := (log2floor a : Int) - (log2floor b : Int) - 52
  let (q0, r0, den0) := divScaled a b t0
  let (q, r, den, t) :=
    if q0 < 2 ^ 52 then
      let (q1, r1, den1) := divScaled a b (t0 - 1)
      (q1, r1, den1, t0 - 1)
    else (q0, r0, den0, t0)
  let m :=
    if den < 2 * r then q + 1
    else if 2 * r < den then q
    else if q % 2 = 0 then q
    else q + 1
  let (m, t) := if m = 2 ^ 53 then (2 ^ 52, t + 1) else (m, t)
  if 971 < t + k then Fp.inf else Fp.finite m (t + k)

/-- CPython `int.__truediv__`: the correctly rounded double of the exact
quotient `a / b` (also used with `b = 1` for exact `float(int)` conversion
of the price constants).  Where CPython raises `OverflowError` (quotient
`≥ 2^1024`) this returns `inf`, which propagates to a `none` cost. -/
def floatOfRatio (a b : Nat) : Fp :=
  if a = 0 then .zero else roundScaled a b 0

/-- Binary64 multiplication of non-negative values: the exact product of
the significands rounded to nearest-even.  (`inf * 0` would be NaN in IEEE;
it is unreachable here since the price operand is a non-zero constant.) -/
def fmulFp : Fp → Fp → Fp
  | .zero, _ => .zero
  | _, .zero => .zero
  | .inf, _ => .inf
  | _, .inf => .inf
  | .finite ma ea, .finite mb eb => roundScaled (ma * mb) 1 (ea + eb)

/-- Python `int(x)` on a non-negative double: truncation toward zero;
`none` models the `OverflowError` raised on `int(inf)`. -/
def truncFp : Fp → Option Nat
  | .zero => some 0
  | .finite m e => some (if 0 ≤ e then m * 2 ^ e.toNat else m / 2 ^ (-e).toNat)
  | .inf => none

/-- `calculate_monthly_cost` from `core/billing/tiers.py`.
`max(0, compute_units_used - included_cu)` is `Nat` truncating subtraction;
`billable_cu / 1_000_000` is CPython int/int true division (correctly
rounded binary64), `millions * price` is binary64 multiplication with the
integer price converted exactly, and `int(...)` truncates toward zero.
A `none` result models the `OverflowError` CPython raises on the overflow
path (in the true division once the quotient reaches `2^1024`). -/
def calculate_monthly_cost (tier : PricingTier) (compute_units_used : Nat) :
    Option Nat :=
  let limits := TIER_LIMITS tier
  match tier with
  | .free => some 0
  | .enterprise => some 0
  | _ =>
    let included_cu := limits.monthly_cu
    let billable_cu := compute_units_used - included_cu
    let millions := floatOfRatio billable_cu 1000000
    truncFp (fmulFp millions (floatOfRatio limits.price_per_million_cu 1))

/-! ## core/chains/lux_models.py — fleet name validation -/

/-- Lowercase ASCII letter, the `[a-z]` character class. -/
def isLowerAlpha (c : Char) : Bool := 'a' ≤ c && c ≤ 'z'

/-- ASCII digit, the `[0-9]` character class. -/
def isDigitChar (c : Char) : Bool := '0' ≤ c && c ≤ '9'

/-- The `[a-z0-9]` character class. -/
def isLowerAlnum (c : Char) : Bool := isLowerAlpha c || isDigitChar c

/-- The `[a-z0-9-]` character class. -/
def isNameChar (c : Char) : Bool := isLowerAlnum c || c = '-'

/-- Acceptance of the `name` field of `LuxFleetCreate`
(`core/chains/lux_models.py`): pydantic applies `min_length=1`,
`max_length=63` and the anchored pattern `^[a-z][a-z0-9-]*$`. -/
def luxFleetNameAccepted (s : String) : Bool :=
  1 ≤ s.data.length && s.data.length ≤ 63 &&
  (match s.data with
   | [] => false
   | c :: rest => isLowerAlpha c && rest.all isNameChar)

/-- Language of the regex `^[a-z]([a-z0-9-]{0,61}[a-z0-9])?$` claimed by the
spec for fleet names (first char alphabetic, length at most 63, last char
alphanumeric).  Stated from the spec's words, for comparison with
`luxFleetNameAccepted`. -/
def specFleetNameRegex (s : String) : Bool :=
  match s.data with
  | [] => false
  | c :: rest =>
    isLowerAlpha c &&
    (rest.isEmpty ||
      (rest.length ≤ 62 && rest.dropLast.all isNameChar &&
       (rest.getLast?.map isLowerAlnum).getD false))

/-! ## core/chains/lux.py — fleet status aggregation -/

/-- `PodInfo` dataclass from `core/deploy/helm.py`. -/
structure PodInfo where
  name : String
  ready : Bool
  status : String
  restarts : Nat := 0
  node : String := ""
  ip : String := ""
  deriving DecidableEq, Repr

/-- `LuxFleetStatus` enum from `core/chains/lux_models.py`. -/
inductive LuxFleetStatus where
  | pending
  | deploying
  | running
  | degraded
  | updating
  | error
  | destroying
  | destroyed
  deriving DecidableEq, Repr

/-- Fleet status derivation of `LuxFleetManager.get_status`
(`core/chains/lux.py`): the early `total == 0 and helm_revision is None`
return with status `error` ("No fleet found"), then the four-way
aggregation on `(total, ready_count)`. -/
def getStatusFleetStatus (helm_revision : Option Nat) (pods : List PodInfo) :
    LuxFleetStatus :=
  let ready_count := pods.countP (fun p => p.ready)
  let total := pods.length
  if total = 0 && helm_revision.isNone then .error
  else if total = 0 then .deploying
  else if ready_count = total then .running
  else if 0 < ready_count then .degraded
  else .error

/-! ## core/billing/tracker.py — usage tracking -/

/-- Modelled from the spec: `get_compute_units` from
`core/billing/compute_units.py`, a file whose source is not in the tree
(only its callers and tests are).  "Compute-unit catalog. Map `method →
CU_cost`. Default for unknown methods is a fixed constant (e.g., 10)."
Catalog entries are taken from the repository's tests. -/
def COMPUTE_UNITS : List (String × Nat) :=
  [("eth_chainId", 1), ("eth_blockNumber", 1), ("net_version", 1),
   ("eth_getBalance", 5), ("eth_getTransactionByHash", 5),
   ("eth_call", 10), ("eth_estimateGas", 10),
   ("eth_getLogs", 25), ("eth_sendRawTransaction", 50),
   ("debug_traceTransaction", 100),
   ("getAccountInfo", 5), ("sendTransaction", 50), ("simulateTransaction", 25),
   ("eth_sendUserOperation", 75), ("eth_estimateUserOperationGas", 25),
   ("tokens_getBalances", 15), ("nfts_getOwned", 20), ("webhooks_create", 5)]

/-- Modelled from the spec: default CU cost for unknown methods. -/
def DEFAULT_COMPUTE_UNITS : Nat := 10

/-- Modelled from the spec: catalog lookup with default. -/
def get_compute_units (method : String) : Nat :=
  ((COMPUTE_UNITS.lookup method).getD DEFAULT_COMPUTE_UNITS)

/-- One buffered usage record, the dict built in `UsageTracker.track`
(`core/billing/tracker.py`). -/
structure UsageRecord where
  project_id : String
  api_key_id : Option String
  chain_id : Nat
  network : String
  endpoint : String
  method : String
  compute_units : Nat
  response_time_ms : Nat
  status_code : Nat
  ip_address : String
  user_agent : String
  timestamp : String
  deriving DecidableEq, Repr

/-- Request metadata passed to `track` besides the method and CU override. -/
structure TrackMeta where
  project_id : String := ""
  api_key_id : Option String := none
  chain_id : Nat := 1
  network : String := "mainnet"
  response_time_ms : Nat := 0
  status_code : Nat := 200
  ip_address : String := ""
  user_agent : String := ""
  timestamp : String := ""
  deriving Repr

/-- State touched by `UsageTracker` for one project: the monthly counter key
`cu:usage:{project}:{period}`, the buffer list key `cu:buffer:{project}`,
the columnar datastore connectivity flag and the rows inserted into the
datastore table `api_usage`. -/
structure TrackerState where
  counter : Nat
  buffer : List UsageRecord
  ds_connected : Bool
  ds_rows : List UsageRecord
  deriving Repr

/-- `UsageTracker._flush_buffer` (`core/billing/tracker.py`): when the
datastore is not connected return immediately (buffer and counter intact);
otherwise atomically read-and-delete the buffer list key and bulk-insert the
records into `api_usage`.  The monthly counter key is never touched. -/
def flush_buffer (st : TrackerState) : TrackerState :=
  if !st.ds_connected then st
  else if st.buffer = [] then st
  else { st with buffer := [], ds_rows := st.ds_rows ++ st.buffer }

/-- `UsageTracker.track` (`core/billing/tracker.py`): resolve the CU cost via
the catalog when no override is supplied, `INCRBY` the monthly counter,
append the JSON record to the buffer list, and flush when the buffer has
reached the batch size of 100. -/
def track (st : TrackerState) (method : String) (compute_units : Option Nat)
    (meta : TrackMeta) : TrackerState :=
  let cost := compute_units.getD (get_compute_units method)
  let record : UsageRecord :=
    { project_id := meta.project_id
      api_key_id := meta.api_key_id
      chain_id := meta.chain_id
      network := meta.network
      endpoint := "/rpc/" ++ meta.network
      method := method
      compute_units := cost
      response_time_ms := meta.response_time_ms
      status_code := meta.status_code
      ip_address := meta.ip_address
      user_agent := meta.user_agent
      timestamp := meta.timestamp }
  let st := { st with counter := st.counter + cost }
  let st := { st with buffer := st.buffer ++ [record] }
  if 100 ≤ st.buffer.length then flush_buffer st else st

/-- `UsageTracker.get_current_usage` (`core/billing/tracker.py`): read the
monthly counter key. -/
def get_current_usage (st : TrackerState) : Nat := st.counter

/-! ## core/deploy/helm.py — exec_pod validation -/

/-- Language of the RFC 1123 DNS-label regex
`^[a-z0-9]([a-z0-9-]{0,61}[a-z0-9])?$` used by `HelmDeployer._K8S_NAME_RE`
in `core/deploy/helm.py`: first and last characters alphanumeric, interior
characters may add hyphens, total length 1..63. -/
def isDnsLabel (s : String) : Bool :=
  match s.data with
  | [] => false
  | c :: rest =>
    isLowerAlnum c &&
    (rest.isEmpty ||
      (rest.length ≤ 62 && rest.dropLast.all isNameChar &&
       (rest.getLast?.map isLowerAlnum).getD false))

/-- Python `re.match` semantics of `_K8S_NAME_RE`: with `re.match`, `$`
matches at the end of the string or just before a trailing newline, so the
compiled pattern also accepts a DNS label followed by one final `\n`. -/
def pyMatchK8sName (s : String) : Bool :=
  isDnsLabel s ||
  ((s.data.getLast? == some '\n') && isDnsLabel (String.mk s.data.dropLast))

/-- Construction parameters of `HelmDeployer` used by `_base_kubectl_args`. -/
structure HelmDeployerCfg where
  kubectl_binary : String := "kubectl"
  kubeconfig_path : Option String := none
  kube_context : Option String := none
  deriving Repr

/-- `HelmDeployer._base_kubectl_args` (`core/deploy/helm.py`). -/
def base_kubectl_args (cfg : HelmDeployerCfg) : List String :=
  [cfg.kubectl_binary]
  ++ (match cfg.kubeconfig_path with
      | some p => ["--kubeconfig", p]
      | none => [])
  ++ (match cfg.kube_context with
      | some c => ["--context", c]
      | none => [])

/-- `HelmDeployer.exec_pod` (`core/deploy/helm.py`) up to the point where the
argument vector is handed to the subprocess: validation of `pod_name` and
`namespace` against `_K8S_NAME_RE`, then construction of the kubectl exec
argv.  An `error` result models the raised `ValueError` (no subprocess is
spawned). -/
def exec_pod (cfg : HelmDeployerCfg) (pod_name ns : String)
    (command : List String) : Except String (List String) :=
  if !pyMatchK8sName pod_name then .error ("Invalid pod name: " ++ pod_name)
  else if !pyMatchK8sName ns then .error ("Invalid namespace: " ++ ns)
  else .ok (base_kubectl_args cfg
    ++ ["exec", pod_name, "--namespace", ns, "--"] ++ command)

/-! ## core/deploy/helm.py — install/upgrade result handling -/

/-- JSON values, the image of Python `json.loads`. -/
inductive Json where
  | null
  | bool (b : Bool)
  | num (n : Int)
  | str (s : String)
  | arr (xs : List Json)
  | obj (members : List (String × Json))

/-- `HelmReleaseStatus` enum from `core/deploy/helm.py`. -/
inductive HelmReleaseStatus where
  | deployed
  | failed
  | pending_install
  | pending_upgrade
  | pending_rollback
  | superseded
  | uninstalled
  | uninstalling
  | unknown
  deriving DecidableEq, Repr

/-- The `HelmReleaseStatus(value)` enum constructor: `none` models the
`ValueError` Python raises on an unknown value (which `install`/`upgrade`
do not catch). -/
def helmReleaseStatusOfString : String → Option HelmReleaseStatus
  | "deployed" => some .deployed
  | "failed" => some .failed
  | "pending-install" => some .pending_install
  | "pending-upgrade" => some .pending_upgrade
  | "pending-rollback" => some .pending_rollback
  | "superseded" => some .superseded
  | "uninstalled" => some .uninstalled
  | "uninstalling" => some .uninstalling
  | "unknown" => some .unknown
  | _ => none

/-- `HelmRelease` dataclass from `core/deploy/helm.py` (`ns` is the Python
field `namespace`, a Lean keyword). -/
structure HelmRelease where
  name : String
  ns : String
  revision : Int
  status : HelmReleaseStatus
  chart : String := ""
  app_version : String := ""
  updated : String := ""
  deriving DecidableEq, Repr

/-- `data.get(k, d)` for an integer field (helm emits `version` as a JSON
number; Python being dynamically typed would store any raw value, but only
the numeric case occurs). -/
def jsonIntD (o : Option Json) (d : Int) : Int :=
  match o with
  | some (.num n) => n
  | _ => d

/-- `data.get(k, d)` for a string field. -/
def jsonStrD (o : Option Json) (d : String) : String :=
  match o with
  | some (.str s) => s
  | _ => d

/-- Result extraction of `HelmDeployer.install` from parsed JSON output
(`core/deploy/helm.py` lines 189-199).  `error` results model uncaught
exceptions: `AttributeError` when a `.get` receiver is not a dict, and
`ValueError` from the `HelmReleaseStatus` constructor — only
`json.JSONDecodeError` and `KeyError` are caught by the fallback. -/
def helm_install_parse (release_name ns : String) (j : Json) :
    Except String HelmRelease :=
  match j with
  | .obj members =>
    match (members.lookup "info").getD (.obj []) with
    | .obj infoMembers =>
      match (infoMembers.lookup "status").getD (.str "unknown") with
      | .str statusStr =>
        match helmReleaseStatusOfString statusStr with
        | some st =>
          match (members.lookup "chart").getD (.obj []) with
          | .obj chartMembers =>
            match (chartMembers.lookup "metadata").getD (.obj []) with
            | .obj metaMembers =>
              .ok { name := release_name
                    ns := ns
                    revision := jsonIntD (members.lookup "version") 1
                    status := st
                    chart := jsonStrD (metaMembers.lookup "name") ""
                    app_version := jsonStrD (metaMembers.lookup "appVersion") ""
                    updated := jsonStrD (infoMembers.lookup "last_deployed") "" }
            | _ => .error "AttributeError"
          | _ => .error "AttributeError"
        | none => .error ("ValueError: invalid status: " ++ statusStr)
      | _ => .error "ValueError: status value is not a string"
    | _ => .error "AttributeError"
  | _ => .error "AttributeError"

/-- Result extraction of `HelmDeployer.upgrade` (lines 241-248): as for
install but without the chart metadata fields. -/
def helm_upgrade_parse (release_name ns : String) (j : Json) :
    Except String HelmRelease :=
  match j with
  | .obj members =>
    match (members.lookup "info").getD (.obj []) with
    | .obj infoMembers =>
      match (infoMembers.lookup "status").getD (.str "unknown") with
      | .str statusStr =>
        match helmReleaseStatusOfString statusStr with
        | some st =>
          .ok { name := release_name
                ns := ns
                revision := jsonIntD (members.lookup "version") 1
                status := st
                updated := jsonStrD (infoMembers.lookup "last_deployed") "" }
        | none => .error ("ValueError: invalid status: " ++ statusStr)
      | _ => .error "ValueError: status value is not a string"
    | _ => .error "AttributeError"
  | _ => .error "AttributeError"

/-- `HelmDeployer.install` after the subprocess ran: `run` is the subprocess
outcome, carrying for a zero exit code the `json.loads` result of stdout
(`none` = stdout was not parseable as JSON).  On parse failure the caught
`except (json.JSONDecodeError, KeyError)` branch returns the best-effort
success record with `revision=1, status=deployed`. -/
def helm_install (release_name ns : String)
    (run : Except String (Option Json)) : Except String HelmRelease :=
  match run with
  | .error e => .error e
  | .ok none =>
    .ok { name := release_name, ns := ns, revision := 1, status := .deployed }
  | .ok (some j) => helm_install_parse release_name ns j

/-- `HelmDeployer.upgrade` after the subprocess ran; same fallback as
install. -/
def helm_upgrade (release_name ns : String)
    (run : Except String (Option Json)) : Except String HelmRelease :=
  match run with
  | .error e => .error e
  | .ok none =>
    .ok { name := release_name, ns := ns, revision := 1, status := .deployed }
  | .ok (some j) => helm_upgrade_parse release_name ns j

/-! ## core/billing/webhooks.py — signature verification

`verify_signature` delegates the digest to the standard library
(`hmac.new(secret.encode(), payload, hashlib.sha256).hexdigest()`); HMAC and
SHA-256 (FIPS 180-4) are therefore embedded in full, over byte lists with
32-bit words carried as `Nat` reduced mod 2^32. -/

/-- 2^32, the word modulus of SHA-256. -/
def M32 : Nat := 4294967296

/-- Right rotation of a 32-bit word. -/
def rotr32 (x n : Nat) : Nat := (x >>> n) ||| ((x <<< (32 - n)) % M32)

/-- SHA-256 Σ0. -/
def bigSigma0 (x : Nat) : Nat := rotr32 x 2 ^^^ rotr32 x 13 ^^^ rotr32 x 22

/-- SHA-256 Σ1. -/
def bigSigma1 (x : Nat) : Nat := rotr32 x 6 ^^^ rotr32 x 11 ^^^ rotr32 x 25

/-- SHA-256 σ0. -/
def smallSigma0 (x : Nat) : Nat := rotr32 x 7 ^^^ rotr32 x 18 ^^^ (x >>> 3)

/-- SHA-256 σ1. -/
def smallSigma1 (x : Nat) : Nat := rotr32 x 17 ^^^ rotr32 x 19 ^^^ (x >>> 10)

/-- SHA-256 Ch function. -/
def chF (e f g : Nat) : Nat := (e &&& f) ^^^ ((e ^^^ 4294967295) &&& g)

/-- SHA-256 Maj function. -/
def majF (a b c : Nat) : Nat := (a &&& b) ^^^ (a &&& c) ^^^ (b &&& c)

/-- SHA-256 round constants. -/
def SHA256_K : List Nat :=
  [1116352408, 1899447441, 3049323471, 3921009573, 961987163,
   1508970993, 2453635748, 2870763221, 3624381080, 310598401,
   607225278, 1426881987, 1925078388, 2162078206, 2614888103,
   3248222580, 3835390401, 4022224774, 264347078, 604807628,
   770255983, 1249150122, 1555081692, 1996064986, 2554220882,
   2821834349, 2952996808, 3210313671, 3336571891, 3584528711,
   113926993, 338241895, 666307205, 773529912, 1294757372,
   1396182291, 1695183700, 1986661051, 2177026350, 2456956037,
   2730485921, 2820302411, 3259730800, 3345764771, 3516065817,
   3600352804, 4094571909, 275423344, 430227734, 506948616,
   659060556, 883997877, 958139571, 1322822218, 1537002063,
   1747873779, 1955562222, 2024104815, 2227730452, 2361852424,
   2428436474, 2756734187, 3204031479, 3329325298]

/-- SHA-256 hash state (eight 32-bit words; `hh` is the word usually called
`h`). -/
structure Sha256State where
  a : Nat
  b : Nat
  c : Nat
  d : Nat
  e : Nat
  f : Nat
  g : Nat
  hh : Nat
  deriving Repr

/-- SHA-256 initial hash value. -/
def sha256InitState : Sha256State :=
  { a := 1779033703, b := 3144134277, c := 1013904242, d := 2773480762,
    e := 1359893119, f := 2600822924, g := 528734635, hh := 1541459225 }

/-- Big-endian 4-byte encoding of a 32-bit word. -/
def be32 (n : Nat) : List Nat :=
  [(n >>> 24) % 256, (n >>> 16) % 256, (n >>> 8) % 256, n % 256]

/-- Big-endian 8-byte encoding of the bit length. -/
def be64 (n : Nat) : List Nat :=
  [(n >>> 56) % 256, (n >>> 48) % 256, (n >>> 40) % 256, (n >>> 32) % 256,
   (n >>> 24) % 256, (n >>> 16) % 256, (n >>> 8) % 256, n % 256]

/-- Big-endian 32-bit words from a byte list (length a multiple of 4). -/
def toWords : List Nat → List Nat
  | b0 :: b1 :: b2 :: b3 :: rest =>
    (b0 * 16777216 + b1 * 65536 + b2 * 256 + b3) :: toWords rest
  | _ => []

/-- SHA-256 padding: append `0x80`, zeros to 56 mod 64, and the 64-bit
big-endian message bit length. -/
def padMessage (msg : List Nat) : List Nat :=
  msg ++ [128] ++ List.replicate ((119 - (msg.length % 64)) % 64) 0
      ++ be64 (msg.length * 8)

/-- Split a byte list into 64-byte blocks. -/
def chunks64 : List Nat → List (List Nat)
  | [] => []
  | x :: xs => ((x :: xs).take 64) :: chunks64 ((x :: xs).drop 64)
termination_by l => l.length
decreasing_by simp [List.length_drop]; omega

/-- SHA-256 message schedule: extend the 16 block words to 64. -/
def msgSchedule (ws : List Nat) : Array Nat :=
  (List.range 48).foldl
    (fun w i =>
      let t := i + 16
      w.push ((smallSigma1 (w.getD (t - 2) 0) + w.getD (t - 7) 0 +
               smallSigma0 (w.getD (t - 15) 0) + w.getD (t - 16) 0) % M32))
    ws.toArray

/-- SHA-256 compression of one 64-byte block. -/
def compressBlock (st : Sha256State) (block : List Nat) : Sha256State :=
  let w := msgSchedule (toWords block)
  let r := (List.range 64).foldl
    (fun s i =>
      let t1 := (s.hh + bigSigma1 s.e + chF s.e s.f s.g +
                 SHA256_K.getD i 0 + w.getD i 0) % M32
      let t2 := (bigSigma0 s.a + majF s.a s.b s.c) % M32
      { a := (t1 + t2) % M32, b := s.a, c := s.b, d := s.c,
        e := (s.d + t1) % M32, f := s.e, g := s.f, hh := s.g })
    st
  { a := (st.a + r.a) % M32, b := (st.b + r.b) % M32,
    c := (st.c + r.c) % M32, d := (st.d + r.d) % M32,
    e := (st.e + r.e) % M32, f := (st.f + r.f) % M32,
    g := (st.g + r.g) % M32, hh := (st.hh + r.hh) % M32 }

/-- SHA-256 digest of a byte list. -/
def sha256 (msg : List Nat) : List Nat :=
  let fin := (chunks64 (padMessage msg)).foldl compressBlock sha256InitState
  ([fin.a, fin.b, fin.c, fin.d, fin.e, fin.f, fin.g, fin.hh].map be32).flatten

/-- HMAC-SHA256 (RFC 2104) of a message under a key, as computed by Python
`hmac.new(key, msg, hashlib.sha256)`. -/
def hmacSha256 (key msg : List Nat) : List Nat :=
  let k0 := if 64 < key.length then sha256 key else key
  let kpad := k0 ++ List.replicate (64 - k0.length) 0
  let ipadKey := kpad.map (fun b => b ^^^ 54)
  let opadKey := kpad.map (fun b => b ^^^ 92)
  sha256 (opadKey ++ sha256 (ipadKey ++ msg))

/-- Lowercase hex digit for a nibble. -/
def hexNibble (n : Nat) : Char :=
  if n < 10 then Char.ofNat (48 + n) else Char.ofNat (87 + n)

/-- Lowercase hex string of a byte list, as in `.hexdigest()`. -/
def bytesToHex (bs : List Nat) : String :=
  String.mk (bs.flatMap (fun b => [hexNibble (b / 16 % 16), hexNibble (b % 16)]))

/-- UTF-8 bytes of a string, as in Python `str.encode()`. -/
def strBytes (s : String) : List Nat :=
  s.toUTF8.toList.map (fun b => b.toNat)

/-- `CommerceWebhookHandler.verify_signature` (`core/billing/webhooks.py`):
skip verification when no webhook secret is configured (empty string is
falsy); otherwise compare the hex HMAC-SHA256 of the raw payload bytes under
the secret against the signature header (`hmac.compare_digest` on equal-type
strings is string equality, evaluated constant-time). -/
def verify_signature (webhook_secret : String) (payload : List Nat)
    (signature : String) : Bool :=
  if webhook_secret = "" then true
  else bytesToHex (hmacSha256 (strBytes webhook_secret) payload) == signature

/-! ## core/billing/webhooks.py — event dispatch -/

/-- The keys of the `handlers` dict in `CommerceWebhookHandler.handle_event`
(`core/billing/webhooks.py`). -/
def handlerTable : List String :=
  ["order.completed", "order.cancelled",
   "subscription.created", "subscription.updated",
   "subscription.cancelled", "subscription.reactivated",
   "invoice.paid", "invoice.payment_failed",
   "payment.paid", "payment.failed", "payment.refunded",
   "customer.created", "customer.updated"]

/-- The dict returned by `handle_event`: `handled`, `event_type` and at most
one of `result`, `error`, `reason`. -/
structure HandleEventResult where
  handled : Bool
  event_type : String
  result : Option Json := none
  error : Option String := none
  reason : Option String := none

/-- `event.get("type", "")` from `handle_event`. -/
def eventType (event : Json) : String :=
  match event with
  | .obj members => jsonStrD (members.lookup "type") ""
  | _ => ""

/-- `event.get("data", {})` from `handle_event`. -/
def eventData (event : Json) : Json :=
  match event with
  | .obj members => (members.lookup "data").getD (.obj [])
  | _ => .obj []

/-- `CommerceWebhookHandler.handle_event` (`core/billing/webhooks.py`):
look the event type up in the handler table; if absent return
`handled=false, reason="unknown_type"`; otherwise run the matched handler
inside `try/except Exception`, turning a raised exception into
`handled=false, error=str(e)`.  `run` abstracts the awaited handler bodies
(database and cache effects): `run t d` is the handler result for event type
`t` on payload `d`, with `Except.error` the raised exception's message. -/
def handle_event (run : String → Json → Except String Json) (event : Json) :
    HandleEventResult :=
  let event_type := eventType event
  let data := eventData event
  if handlerTable.contains event_type then
    match run event_type data with
    | .ok r => { handled := true, event_type := event_type, result := some r }
    | .error e => { handled := false, event_type := event_type, error := some e }
  else
    { handled := false, event_type := event_type, reason := some "unknown_type" }

/-! ## api/networks/__init__.py — network launcher -/

/-- `NetworkTier` enum from `api/networks/__init__.py`. -/
inductive NetworkTier where
  | starter
  | pro
  | enterprise
  deriving DecidableEq, Repr

/-- The dict returned by `_tier_defaults`. -/
structure TierDefaults where
  web_replicas : Nat
  api_replicas : Nat
  validator_count : Nat
  deriving DecidableEq, Repr

/-- `_tier_defaults` from `api/networks/__init__.py`. -/
def tier_defaults : NetworkTier → TierDefaults
  | .starter => { web_replicas := 2, api_replicas := 0, validator_count := 0 }
  | .pro => { web_replicas := 2, api_replicas := 3, validator_count := 3 }
  | .enterprise => { web_replicas := 3, api_replicas := 5, validator_count := 5 }

/-- `NetworkBrand` pydantic model from `api/networks/__init__.py`. -/
structure NetworkBrand where
  name : String
  domain : String
  logo_url : String := ""
  primary_color : String := "#000000"
  accent_color : String := "#fd4444"
  deriving DecidableEq, Repr

/-- `NetworkCreate` pydantic model from `api/networks/__init__.py`. -/
structure NetworkCreate where
  name : String
  brand : NetworkBrand
  tier : NetworkTier := .starter
  region : String := "sfo3"
  chain_id : Option Int := none
  deploy_validators : Bool := false
  validator_count : Nat := 3
  iam_org : Option String := none
  iam_domain : Option String := none
  deriving Repr

/-- Python `a or b` on an optional string (`None` and `""` are falsy). -/
def pyOrStr (o : Option String) (d : String) : String :=
  match o with
  | some s => if s = "" then d else s
  | none => d

/-- The `network` dict stored into the registry by `launch_network`
(`ns` is the Python key `namespace`, a Lean keyword). -/
structure NetworkRecord where
  id : String
  name : String
  brand : NetworkBrand
  tier : NetworkTier
  status : String
  region : String
  chain_id : Option Int
  cloud_url : String
  api_url : String
  ws_url : String
  rpc_url : String
  iam_org : String
  iam_app_client_id : String
  iam_domain : String
  web_replicas : Nat
  api_replicas : Nat
  validator_count : Nat
  cluster_id : Option String
  ns : String
  created_at : String
  updated_at : String
  provisioned_at : Option String
  error : Option String
  deriving Repr

/-- The pure part of `launch_network` (`api/networks/__init__.py` lines
329-375): the registry record built before any kubectl call.  The random
`network_id` and the timestamp are passed as parameters. -/
def launch_network_record (req : NetworkCreate) (network_id now : String) :
    NetworkRecord :=
  let tier := tier_defaults req.tier
  { id := network_id
    name := req.name
    brand := req.brand
    tier := req.tier
    status := "provisioning"
    region := req.region
    chain_id := req.chain_id
    cloud_url := "https://cloud." ++ req.brand.domain
    api_url := "https://api.cloud." ++ req.brand.domain
    ws_url := "wss://ws.cloud." ++ req.brand.domain
    rpc_url := "https://api.cloud." ++ req.brand.domain ++ "/v1/rpc/" ++ req.name
    iam_org := pyOrStr req.iam_org req.name
    iam_app_client_id := req.name ++ "-cloud"
    iam_domain := pyOrStr req.iam_domain (req.name ++ ".id")
    web_replicas := tier.web_replicas
    api_replicas := tier.api_replicas
    validator_count := if req.deploy_validators then tier.validator_count else 0
    cluster_id := none
    ns := "bootnode"
    created_at := now
    updated_at := now
    provisioned_at := none
    error := none }

/-- The arguments `launch_network` passes to `_deploy_web` (lines 379-387);
`replicas` is rendered verbatim into the Deployment manifest's
`spec.replicas`. -/
structure DeployWebArgs where
  name : String
  domain : String
  iam_org : String
  iam_domain : String
  iam_client_id : String
  replicas : Nat
  deriving DecidableEq, Repr

/-- The `_deploy_web` call made by `launch_network`. -/
def launch_deploy_web_call (req : NetworkCreate) : DeployWebArgs :=
  { name := req.name
    domain := req.brand.domain
    iam_org := pyOrStr req.iam_org req.name
    iam_domain := pyOrStr req.iam_domain (req.name ++ ".id")
    iam_client_id := req.name ++ "-cloud"
    replicas := (tier_defaults req.tier).web_replicas }

/-! ## core/billing/webhooks.py — subscription reconciliation -/

/-- `PLAN_TO_TIER` from `core/billing/webhooks.py`. -/
def PLAN_TO_TIER : List (String × PricingTier) :=
  [("bootnode-free", .free), ("bootnode-payg", .payg),
   ("bootnode-growth", .growth), ("bootnode-enterprise", .enterprise)]

/-- `PLAN_TO_TIER.get(plan_slug, PricingTier.FREE)`. -/
def planToTier (slug : String) : PricingTier :=
  (PLAN_TO_TIER.lookup slug).getD .free

/-- Python truthiness of an optional string (`None` and `""` are falsy). -/
def pyTruthy (o : Option String) : Bool :=
  match o with
  | some s => !(s == "")
  | none => false

/-- Hex digit as accepted by `int(s, 16)`. -/
def isHexChar (c : Char) : Bool :=
  isDigitChar c || ('a' ≤ c && c ≤ 'f') || ('A' ≤ c && c ≤ 'F')

/-- Acceptance of `uuid.UUID(s)` (standard library, outside the repository):
modelled for the canonical forms in play as "hyphens removed, 32 hex
digits". -/
def isUuid (s : String) : Bool :=
  let digits := s.data.filter (fun c => c != '-')
  digits.length = 32 && digits.all isHexChar

/-- The `Subscription` database row fields touched by the webhook handlers
(`hanzo_subscription_id`/`hanzo_customer_id` as in `db/models`; `tier` is
stored as the tier's value string, modelled by the enum). -/
structure SubscriptionRow where
  project_id : String
  tier : PricingTier
  monthly_cu_limit : Nat
  rate_limit_per_second : Nat
  max_apps : Nat
  max_webhooks : Nat
  hanzo_subscription_id : Option String := none
  hanzo_customer_id : Option String := none
  scheduled_tier : Option PricingTier := none
  billing_cycle_end : Option String := none
  deriving DecidableEq, Repr

/-- `handle_subscription_created` (`core/billing/webhooks.py` lines 142-177),
update branch for an existing row matched by `project_id`:
`plan_slug = data.get("plan_slug", "bootnode-free")`, tier via
`PLAN_TO_TIER.get(plan_slug, FREE)`, then overwrite ids, tier and limits. -/
def handle_subscription_created_existing (sub : SubscriptionRow)
    (subscription_id customer_id plan_slug : Option String) : SubscriptionRow :=
  let tier := planToTier (plan_slug.getD "bootnode-free")
  let limits := get_tier_limits tier
  { sub with
    hanzo_subscription_id := subscription_id
    hanzo_customer_id := customer_id
    tier := tier
    monthly_cu_limit := limits.monthly_cu
    rate_limit_per_second := limits.rate_limit_per_second
    max_apps := limits.max_apps
    max_webhooks := limits.max_webhooks }

/-- `handle_subscription_updated` (lines 216-250) on the row matched by
`hanzo_subscription_id`: overwrite tier and limits from the slug, refresh
`billing_cycle_end` when `current_period_end` is truthy. -/
def handle_subscription_updated_row (sub : SubscriptionRow)
    (plan_slug current_period_end : Option String) : SubscriptionRow :=
  let tier := planToTier (plan_slug.getD "bootnode-free")
  let limits := get_tier_limits tier
  let sub :=
    { sub with
      tier := tier
      monthly_cu_limit := limits.monthly_cu
      rate_limit_per_second := limits.rate_limit_per_second
      max_apps := limits.max_apps
      max_webhooks := limits.max_webhooks }
  if pyTruthy current_period_end then
    { sub with billing_cycle_end := current_period_end }
  else sub

/-- `handle_subscription_reactivated` (lines 317-340) on the matched row:
restore tier and limits from the slug, clear `scheduled_tier`. -/
def handle_subscription_reactivated_row (sub : SubscriptionRow)
    (plan_slug : Option String) : SubscriptionRow :=
  let tier := planToTier (plan_slug.getD "bootnode-free")
  let limits := get_tier_limits tier
  { sub with
    tier := tier
    monthly_cu_limit := limits.monthly_cu
    rate_limit_per_second := limits.rate_limit_per_second
    max_apps := limits.max_apps
    max_webhooks := limits.max_webhooks
    scheduled_tier := none }

/-- `handle_order_completed` (lines 358-423) restricted to its effect on an
existing subscription row: the upsert only runs under
`if plan_slug and project_id_str:` (both truthy) and a successful
`UUID(project_id_str)` parse; `none` means the handler performs no
subscription mutation (it only logs and acknowledges). -/
def handle_order_completed_existing (sub : SubscriptionRow)
    (metadata_plan_slug metadata_project_id subscription_id customer_id :
      Option String) : Option SubscriptionRow :=
  if pyTruthy metadata_plan_slug && pyTruthy metadata_project_id then
    if isUuid (metadata_project_id.getD "") then
      let tier := planToTier (metadata_plan_slug.getD "")
      let limits := get_tier_limits tier
      some { sub with
        tier := tier
        monthly_cu_limit := limits.monthly_cu
        rate_limit_per_second := limits.rate_limit_per_second
        max_apps := limits.max_apps
        max_webhooks := limits.max_webhooks
        hanzo_subscription_id :=
          if pyTruthy subscription_id then subscription_id
          else sub.hanzo_subscription_id
        hanzo_customer_id :=
          if pyTruthy customer_id then customer_id
          else sub.hanzo_customer_id }
    else none
  else none

/-- A growth-tier subscription row used as the concrete instance in the
order.completed statements. -/
def sampleSubscriptionRow : SubscriptionRow :=
  { project_id := "123e4567-e89b-12d3-a456-426614174000"
    tier := .growth
    monthly_cu_limit := 100000000
    rate_limit_per_second := 500
    max_apps := 50
    max_webhooks := 250 }

/-- The handler result fields asserted by "overwrites the matched
subscription's tier and limits with tier `t`". -/
def overwrittenWithTier (old new : SubscriptionRow) (t : PricingTier) : Prop :=
  new.tier = t
  ∧ new.monthly_cu_limit = (get_tier_limits t).monthly_cu
  ∧ new.rate_limit_per_second = (get_tier_limits t).rate_limit_per_second
  ∧ new.max_apps = (get_tier_limits t).max_apps
  ∧ new.max_webhooks = (get_tier_limits t).max_webhooks
  ∧ new.project_id = old.project_id

end Bootnode

namespace Bootnode

set_option maxRecDepth 4000 in
/-- C1 counterexample: at 1,500,000 CU on the PAYG tier the code charges
`int(1.5 * 40) = 60` cents, while the claimed formula
`floor(n / 1e6) * price_payg` gives `1 * 40 = 40` cents. -/
theorem calculate_monthly_cost_payg_not_floor_first :
    calculate_monthly_cost PricingTier.payg 1500000 = some 60 ∧
    1500000 / 1000000 * (TIER_LIMITS PricingTier.payg).price_per_million_cu = 40 ∧
    (some 60 : Option Nat) ≠ some 40 := by
  refine ⟨by decide, rfl, by decide⟩

set_option maxRecDepth 4000 in
/-- C1 (amended): for every CU count `n`, the free and enterprise tiers cost
0.  PAYG and growth compute `int(fl(billable / 10^6) * fl(price))` in IEEE
binary64, with `billable = n` at price 40 for PAYG and
`billable = max(0, n - 100e6)` at price 35 for growth.  This agrees with
the exact floor-after-multiply value `billable * price / 10^6` at the
repository's own test points — PAYG: 0, 10^6 ↦ 40, 1.5*10^6 ↦ 60,
10^7 ↦ 400; growth: 5*10^7 ↦ 0, 10^8 ↦ 0, 1.1*10^8 ↦ 350 — but not at
every `n`: at `n = 6871947673924999` on PAYG the double computation rounds
up across the integer boundary to 274877906957 cents where the exact floor
is 274877906956. -/
theorem calculate_monthly_cost_spec (n : Nat) :
    calculate_monthly_cost PricingTier.free n = some 0
    ∧ calculate_monthly_cost PricingTier.enterprise n = some 0
    ∧ calculate_monthly_cost PricingTier.payg 0 = some 0
    ∧ calculate_monthly_cost PricingTier.payg 1000000 = some 40
    ∧ calculate_monthly_cost PricingTier.payg 1500000 = some 60
    ∧ calculate_monthly_cost PricingTier.payg 10000000 = some 400
    ∧ calculate_monthly_cost PricingTier.growth 50000000 = some 0
    ∧ calculate_monthly_cost PricingTier.growth 100000000 = some 0
    ∧ calculate_monthly_cost PricingTier.growth 110000000 = some 350
    ∧ calculate_monthly_cost PricingTier.payg 6871947673924999
        = some 274877906957
    ∧ 6871947673924999 * 40 / 1000000 = 274877906956 := by
  refine ⟨rfl, rfl, by decide, by decide, by decide, by decide, by decide,
          by decide, by decide, by decide, by decide⟩

/-- C2 counterexample: the name "a-" (trailing hyphen) is accepted by the
`LuxFleetCreate` validator, whose pattern is `^[a-z][a-z0-9-]*$`, but is not
in the language of the regex `^[a-z]([a-z0-9-]{0,61}[a-z0-9])?$` claimed by
the spec. -/
theorem luxFleetName_trailing_hyphen_accepted :
    luxFleetNameAccepted "a-" = true ∧ specFleetNameRegex "a-" = false := by
  decide

/-- C2 (amended): fleet create accepts a name iff it is nonempty, starts with
a lowercase letter, every later character is a lowercase letter, digit or
hyphen, and its length is at most 63; trailing hyphens are accepted.  In
particular an all-`a` name of length 63 is accepted and one of length 64 is
rejected. -/
theorem luxFleetNameAccepted_iff (s : String) :
    (luxFleetNameAccepted s = true ↔
      ∃ c cs, s.data = c :: cs ∧ isLowerAlpha c = true ∧
        (∀ x ∈ cs, isNameChar x = true) ∧ cs.length ≤ 62) ∧
    luxFleetNameAccepted (String.mk (List.replicate 63 'a')) = true ∧
    luxFleetNameAccepted (String.mk (List.replicate 64 'a')) = false := by
  refine ⟨?_, by decide, by decide⟩
  unfold luxFleetNameAccepted
  cases h : s.data with
  | nil => simp
  | cons c cs =>
    simp only [Bool.and_eq_true, List.all_eq_true, decide_eq_true_eq]
    constructor
    · rintro ⟨⟨-, hlen⟩, hc, hall⟩
      exact ⟨c, cs, rfl, hc, hall, by simpa [Nat.succ_le_succ_iff] using hlen⟩
    · rintro ⟨c', cs', hEq, hc', hall', hlen'⟩
      simp only [List.cons.injEq] at hEq
      obtain ⟨rfl, rfl⟩ := hEq
      refine ⟨⟨by simp, by simpa [Nat.succ_le_succ_iff] using hlen'⟩, hc', hall'⟩

/-- C3: on a fleet that exists (a Helm release is present or the pod list is
nonempty), `get_status` derives exactly: deploying when the pod list is
empty; running when every pod is ready; degraded when some but not all pods
are ready; error when no pod is ready. -/
theorem getStatusFleetStatus_spec (helm_revision : Option Nat)
    (pods : List PodInfo) (hex : helm_revision ≠ none ∨ pods ≠ []) :
    getStatusFleetStatus helm_revision pods =
      (if pods = [] then .deploying
       else if pods.all (fun p => p.ready) then .running
       else if pods.any (fun p => p.ready) then .degraded
       else .error) := by
  unfold getStatusFleetStatus
  cases pods with
  | nil =>
    have h : helm_revision ≠ none := hex.resolve_right (fun hc => hc rfl)
    cases helm_revision with
    | none => exact absurd rfl h
    | some v => simp
  | cons p ps =>
    by_cases hall : ((p :: ps).all (fun q => q.ready)) = true
    · have hcount : (p :: ps).countP (fun q => q.ready) = (p :: ps).length :=
        List.countP_eq_length.mpr (fun x hx => by
          simpa using List.all_eq_true.mp hall x hx)
      simp [hall, hcount]
    · have hne : (p :: ps).countP (fun q => q.ready) ≠ (p :: ps).length := by
        intro hc
        exact hall (List.all_eq_true.mpr fun x hx => by
          simpa using List.countP_eq_length.mp hc x hx)
      simp only [List.length_cons] at hne
      by_cases hany : ((p :: ps).any (fun q => q.ready)) = true
      · have hpos : 0 < (p :: ps).countP (fun q => q.ready) := by
          obtain ⟨x, hx, hpx⟩ := List.any_eq_true.mp hany
          exact List.countP_pos_iff.mpr ⟨x, hx, by simpa using hpx⟩
        simp [hall, hany, hne, hpos]
      · have hzero : ¬ 0 < (p :: ps).countP (fun q => q.ready) := by
          intro hpos
          obtain ⟨x, hx, hpx⟩ := List.countP_pos_iff.mp hpos
          exact hany (List.any_eq_true.mpr ⟨x, hx, by simpa using hpx⟩)
        simp [hall, hany, hne, hzero]

lemma flush_buffer_counter (st : TrackerState) :
    (flush_buffer st).counter = st.counter := by
  unfold flush_buffer
  split
  · rfl
  · split
    · rfl
    · rfl

lemma track_counter (st : TrackerState) (m : String) (cu : Option Nat)
    (meta : TrackMeta) :
    (track st m cu meta).counter = st.counter + cu.getD (get_compute_units m) := by
  simp only [track]
  split
  · simp [flush_buffer_counter]
  · rfl

lemma foldl_track_counter (ms : List String) (st0 : TrackerState)
    (meta : TrackMeta) :
    (ms.foldl (fun st m => track st m none meta) st0).counter
      = st0.counter + (ms.map get_compute_units).sum := by
  induction ms generalizing st0 with
  | nil => simp
  | cons m ms ih =>
    simp [List.foldl_cons, ih, track_counter, Nat.add_assoc]

/-- C4: after `k` `track` calls (no CU override) from a fresh month, the
monthly counter read by `get_current_usage` equals the sum of the catalog
costs of the tracked methods, whatever the datastore connectivity; and
`_flush_buffer` only empties the buffer list key (or leaves the state
untouched), never modifying the monthly usage counter. -/
theorem usage_counter_eq_catalog_sum (ms : List String) (dsc : Bool)
    (meta : TrackMeta) :
    get_current_usage (ms.foldl (fun st m => track st m none meta)
        { counter := 0, buffer := [], ds_connected := dsc, ds_rows := [] })
      = (ms.map get_compute_units).sum
    ∧ ∀ st : TrackerState, (flush_buffer st).counter = st.counter ∧
        ((flush_buffer st).buffer = [] ∨ flush_buffer st = st) := by
  constructor
  · simpa [get_current_usage] using
      foldl_track_counter ms
        { counter := 0, buffer := [], ds_connected := dsc, ds_rows := [] } meta
  · intro st
    refine ⟨flush_buffer_counter st, ?_⟩
    unfold flush_buffer
    split
    · exact Or.inr rfl
    · split
      · exact Or.inr rfl
      · exact Or.inl rfl

/-- C5 counterexample: the pod name "abc\n" is not in the language of
`^[a-z0-9]([a-z0-9-]{0,61}[a-z0-9])?$`, yet `exec_pod` does not raise: with
Python `re.match`, `$` also matches just before a trailing newline, so the
argv is built and the subprocess spawned. -/
theorem exec_pod_trailing_newline_accepted :
    (exec_pod {} "abc\n" "default" ["ls"]).isOk = true ∧
    isDnsLabel "abc\n" = false := by
  exact ⟨rfl, by decide⟩

/-- C5 (amended): `exec_pod` builds the kubectl argument vector — exclusively
from the base kubectl args, the two validated names and the caller's argv —
if and only if both `pod_name` and `namespace` match `_K8S_NAME_RE` under
Python `re.match` semantics, which accept a DNS label optionally followed by
one trailing newline; otherwise it raises a validation error before any
subprocess is spawned. -/
theorem exec_pod_validation_iff (cfg : HelmDeployerCfg) (pod ns : String)
    (command : List String) :
    exec_pod cfg pod ns command
        = .ok (base_kubectl_args cfg
            ++ ["exec", pod, "--namespace", ns, "--"] ++ command)
      ↔ (pyMatchK8sName pod = true ∧ pyMatchK8sName ns = true) := by
  unfold exec_pod
  by_cases hp : pyMatchK8sName pod = true
  · by_cases hn : pyMatchK8sName ns = true
    · simp [hp, hn]
    · simp [hp, Bool.eq_false_iff.mpr hn, hn]
  · simp [Bool.eq_false_iff.mpr hp, hp]

/-- C6: when the helm subprocess exits 0 but its stdout is not parseable as
JSON, both `install` and `upgrade` return the best-effort success record
with `revision = 1` and `status = deployed`, carrying the requested release
name and namespace, rather than an error. -/
theorem helm_install_upgrade_parse_failure_fallback (release_name ns : String) :
    helm_install release_name ns (.ok none)
      = .ok { name := release_name, ns := ns, revision := 1,
              status := .deployed, chart := "", app_version := "", updated := "" }
    ∧ helm_upgrade release_name ns (.ok none)
      = .ok { name := release_name, ns := ns, revision := 1,
              status := .deployed, chart := "", app_version := "", updated := "" } :=
  ⟨rfl, rfl⟩

/-- C7: `verify_signature` returns true iff no webhook secret is configured
or the signature equals the hex HMAC-SHA256 of the raw payload bytes under
the configured secret; in particular the genuine signature always verifies,
any other string (e.g. a single-bit flip of the signature) is rejected when
a secret is configured, and with no secret every payload and signature
verifies.  (The constant-time property of `hmac.compare_digest` is a timing
property with no shallow-embedding content; its functional content is string
equality.) -/
theorem verify_signature_iff (secret : String) (payload : List Nat)
    (sig : String) :
    (verify_signature secret payload sig = true ↔
      secret = "" ∨ sig = bytesToHex (hmacSha256 (strBytes secret) payload))
    ∧ verify_signature secret payload
        (bytesToHex (hmacSha256 (strBytes secret) payload)) = true := by
  constructor
  · unfold verify_signature
    by_cases hs : secret = ""
    · simp [hs]
    · rw [if_neg hs, beq_iff_eq]
      constructor
      · intro h
        exact Or.inr h.symm
      · rintro (h | h)
        · exact absurd h hs
        · exact h.symm
  · unfold verify_signature
    by_cases hs : secret = ""
    · simp [hs]
    · rw [if_neg hs]
      exact beq_self_eq_true _

/-- C8: `handle_event` returns `handled=false, reason="unknown_type"` for any
event whose type is not in the dispatch table, and `handled=false,
error=msg` whenever the matched handler raises; being a total function of
the handler outcome, it never propagates a handler exception. -/
theorem handle_event_dispatch (run : String → Json → Except String Json)
    (event : Json) :
    (handlerTable.contains (eventType event) = false →
      handle_event run event
        = { handled := false, event_type := eventType event,
            reason := some "unknown_type" })
    ∧ ∀ msg, handlerTable.contains (eventType event) = true →
        run (eventType event) (eventData event) = .error msg →
        handle_event run event
          = { handled := false, event_type := eventType event,
              error := some msg } := by
  constructor
  · intro hmem
    unfold handle_event
    dsimp only
    rw [hmem]
    simp
  · intro msg hmem hrun
    unfold handle_event
    dsimp only
    rw [hmem, hrun]
    simp

/-- C8 witness: an unknown event type is acknowledged with reason
`unknown_type`, and a known type whose handler raises "boom" is acknowledged
with that error. -/
theorem handle_event_dispatch_witness :
    handle_event (fun _ _ => Except.error "boom")
        (Json.obj [("type", Json.str "some.unknown.event")])
      = { handled := false, event_type := "some.unknown.event",
          reason := some "unknown_type" }
    ∧ handle_event (fun _ _ => Except.error "boom")
        (Json.obj [("type", Json.str "customer.created")])
      = { handled := false, event_type := "customer.created",
          error := some "boom" } :=
  ⟨(handle_event_dispatch (fun _ _ => Except.error "boom")
      (Json.obj [("type", Json.str "some.unknown.event")])).1 rfl,
   (handle_event_dispatch (fun _ _ => Except.error "boom")
      (Json.obj [("type", Json.str "customer.created")])).2 "boom" rfl rfl⟩

/-- C3 witness: a fleet with a Helm release and one ready pod is `running`. -/
theorem getStatusFleetStatus_spec_witness :
    getStatusFleetStatus (some 3) [{ name := "luxd-0", ready := true, status := "Running" }] =
      (if ([{ name := "luxd-0", ready := true, status := "Running" }] : List PodInfo) = [] then .deploying
       else if ([{ name := "luxd-0", ready := true, status := "Running" }] : List PodInfo).all (fun p => p.ready) then .running
       else if ([{ name := "luxd-0", ready := true, status := "Running" }] : List PodInfo).any (fun p => p.ready) then .degraded
       else .error) :=
  getStatusFleetStatus_spec (some 3) _ (Or.inl (by simp))

/-- C9: the replica counts recorded by `launch_network` come from the tier
catalog (starter web 2 / api 0 / validators 0, pro 2/3/3, enterprise 3/5/5),
the stored `validator_count` is zeroed when the request does not set
`deploy_validators`, and `_deploy_web` is invoked with exactly the tier's
web replica count (rendered into the Deployment manifest). -/
theorem launch_network_tier_replicas (req : NetworkCreate)
    (network_id now : String) :
    tier_defaults .starter = { web_replicas := 2, api_replicas := 0, validator_count := 0 }
    ∧ tier_defaults .pro = { web_replicas := 2, api_replicas := 3, validator_count := 3 }
    ∧ tier_defaults .enterprise = { web_replicas := 3, api_replicas := 5, validator_count := 5 }
    ∧ (launch_network_record req network_id now).web_replicas
        = (tier_defaults req.tier).web_replicas
    ∧ (launch_network_record req network_id now).api_replicas
        = (tier_defaults req.tier).api_replicas
    ∧ (req.deploy_validators = false →
        (launch_network_record req network_id now).validator_count = 0)
    ∧ (req.deploy_validators = true →
        (launch_network_record req network_id now).validator_count
          = (tier_defaults req.tier).validator_count)
    ∧ (launch_deploy_web_call req).replicas = (tier_defaults req.tier).web_replicas := by
  refine ⟨rfl, rfl, rfl, rfl, rfl, ?_, ?_, rfl⟩
  · intro h
    simp [launch_network_record, h]
  · intro h
    simp [launch_network_record, h]

/-- C9 witness: a pro-tier request without validator deployment records
`validator_count = 0`. -/
theorem launch_network_tier_replicas_witness :
    ({ name := "lux", brand := { name := "Lux", domain := "lux.network" },
       tier := .pro } : NetworkCreate).deploy_validators = false
    ∧ (launch_network_record
        { name := "lux", brand := { name := "Lux", domain := "lux.network" },
          tier := .pro } "net-1" "t").validator_count = 0 :=
  ⟨rfl,
   (launch_network_tier_replicas
      { name := "lux", brand := { name := "Lux", domain := "lux.network" },
        tier := .pro } "net-1" "t").2.2.2.2.2.1 rfl⟩

/-- C10 counterexample: an `order.completed` event whose metadata carries a
valid `project_id` but no `plan_slug` performs no subscription mutation at
all — in particular the matched growth-tier row is not overwritten with
free-tier limits as the claim states. -/
theorem order_completed_missing_slug_no_mutation :
    handle_order_completed_existing sampleSubscriptionRow
        none (some "123e4567-e89b-12d3-a456-426614174000")
        (some "sub_x") (some "cust_y")
      = none
    ∧ (none : Option SubscriptionRow)
        ≠ some { sampleSubscriptionRow with
                 tier := .free, monthly_cu_limit := 30000000,
                 rate_limit_per_second := 25, max_apps := 5, max_webhooks := 5,
                 hanzo_subscription_id := some "sub_x",
                 hanzo_customer_id := some "cust_y" } := by
  exact ⟨rfl, by decide⟩

/-- C10 (amended): for `subscription.created`, `subscription.updated` and
`subscription.reactivated`, a missing `plan_slug` defaults to
"bootnode-free" and an unknown slug maps to the free tier, and in both cases
the handler silently overwrites the matched subscription's tier and limits
with free-tier limits; for `order.completed`, an unknown but present
(non-empty) slug likewise causes a free-tier overwrite, but a missing or
empty slug causes no subscription mutation. -/
theorem unknown_plan_slug_maps_to_free (s pid : String)
    (sub : SubscriptionRow) (sid cid : Option String)
    (hlook : PLAN_TO_TIER.lookup s = none) :
    overwrittenWithTier sub
        (handle_subscription_created_existing sub sid cid (some s)) .free
    ∧ overwrittenWithTier sub
        (handle_subscription_created_existing sub sid cid none) .free
    ∧ overwrittenWithTier sub
        (handle_subscription_updated_row sub (some s) none) .free
    ∧ overwrittenWithTier sub
        (handle_subscription_updated_row sub none none) .free
    ∧ overwrittenWithTier sub
        (handle_subscription_reactivated_row sub (some s)) .free
    ∧ overwrittenWithTier sub
        (handle_subscription_reactivated_row sub none) .free
    ∧ handle_order_completed_existing sub none (some pid) sid cid = none
    ∧ handle_order_completed_existing sub (some "") (some pid) sid cid = none
    ∧ (s ≠ "" → pid ≠ "" → isUuid pid = true →
        handle_order_completed_existing sub (some s) (some pid) sid cid
          = some { sub with
                   tier := .free
                   monthly_cu_limit := 30000000
                   rate_limit_per_second := 25
                   max_apps := 5
                   max_webhooks := 5
                   hanzo_subscription_id :=
                     if pyTruthy sid then sid else sub.hanzo_subscription_id
                   hanzo_customer_id :=
                     if pyTruthy cid then cid else sub.hanzo_customer_id }) := by
  have hfree : planToTier s = .free := by
    simp [planToTier, hlook]
  refine ⟨?_, ?_, ?_, ?_, ?_, ?_, ?_, ?_, ?_⟩
  · simp [handle_subscription_created_existing, overwrittenWithTier, hfree,
          get_tier_limits, TIER_LIMITS]
  · simp [handle_subscription_created_existing, overwrittenWithTier, planToTier,
          PLAN_TO_TIER, get_tier_limits, TIER_LIMITS]
  · simp [handle_subscription_updated_row, overwrittenWithTier, hfree,
          pyTruthy, get_tier_limits, TIER_LIMITS]
  · simp [handle_subscription_updated_row, overwrittenWithTier, planToTier,
          PLAN_TO_TIER, pyTruthy, get_tier_limits, TIER_LIMITS]
  · simp [handle_subscription_reactivated_row, overwrittenWithTier, hfree,
          get_tier_limits, TIER_LIMITS]
  · simp [handle_subscription_reactivated_row, overwrittenWithTier, planToTier,
          PLAN_TO_TIER, get_tier_limits, TIER_LIMITS]
  · simp [handle_order_completed_existing, pyTruthy]
  · simp [handle_order_completed_existing, pyTruthy]
  · intro hs hpid hiu
    simp [handle_order_completed_existing, pyTruthy, hs, hpid, hiu, hfree,
          get_tier_limits, TIER_LIMITS]

/-- C10 witness: the unknown slug "bootnode-pro" on an `order.completed`
event with a valid project id overwrites the sample growth row with
free-tier limits; the hypotheses hold at these concrete inputs. -/
theorem unknown_plan_slug_maps_to_free_witness :
    PLAN_TO_TIER.lookup "bootnode-pro" = none
    ∧ handle_order_completed_existing sampleSubscriptionRow
        (some "bootnode-pro") (some "123e4567-e89b-12d3-a456-426614174000")
        (some "sub_x") (some "cust_y")
      = some { sampleSubscriptionRow with
               tier := .free
               monthly_cu_limit := 30000000
               rate_limit_per_second := 25
               max_apps := 5
               max_webhooks := 5
               hanzo_subscription_id :=
                 if pyTruthy (some "sub_x") then some "sub_x"
                 else sampleSubscriptionRow.hanzo_subscription_id
               hanzo_customer_id :=
                 if pyTruthy (some "cust_y") then some "cust_y"
                 else sampleSubscriptionRow.hanzo_customer_id } :=
  ⟨rfl,
   (unknown_plan_slug_maps_to_free "bootnode-pro"
      "123e4567-e89b-12d3-a456-426614174000" sampleSubscriptionRow
      (some "sub_x") (some "cust_y") rfl).2.2.2.2.2.2.2.2
      (by decide) (by decide) (by decide)⟩

end Bootnode
